import Mathlib

/-!
Shallow embedding of the DocuAPI generator (src/generator.js, src/parser.js)
and proofs about its rendering, search-index, stylesheet, validation and
parsing behaviour.

Modelling conventions:
* JS objects consulted by the code become structures with `Option` fields;
  mappings iterated with `Object.entries` become association lists, so the
  JS insertion/iteration order is the list order.
* JS string truthiness (`x ? a : b`, `x || y`) is modelled by `ifStr` /
  `jsOr`: `undefined` and the empty string are falsy, object values are
  truthy exactly when present (`Option.isSome`).
* Template-literal pieces become explicit string concatenations; the
  `xs.map(f).join('')` idiom becomes `joinMap f xs`.
* Strings are Lean `String`s; per-character operations are written on
  `String.data`.  `str.replace(/c/g, r)` chains whose later patterns never
  occur in earlier replacement texts are rendered as a single
  per-character pass.
-/

set_option linter.unusedVariables false
set_option maxHeartbeats 4000000
set_option maxRecDepth 10000

/-- The apostrophe character (code point 39). -/
def apos : Char := Char.ofNat 39

/-- The double-quote character (code point 34). -/
def quot : Char := Char.ofNat 34

/-- Embedding of the JS idiom `o || b` for a possibly-undefined string `o`:
the empty string and `undefined` are falsy. -/
def jsOr (o : Option String) (b : String) : String :=
  match o with
  | some s => if s = "" then b else s
  | none => b

/-- Embedding of the JS idiom `o ? f(o) : ''` for a possibly-undefined
string `o`. -/
def ifStr (o : Option String) (f : String → String) : String :=
  match o with
  | some s => if s = "" then "" else f s
  | none => ""

/-- Embedding of `xs.map(f).join('')`. -/
def joinMap {α : Type} (f : α → String) : List α → String
  | [] => ""
  | x :: xs => f x ++ joinMap f xs

/-- Embedding of `xs.join(sep)`. -/
def joinSep (sep : String) : List String → String
  | [] => ""
  | [x] => x
  | x :: y :: xs => x ++ sep ++ joinSep sep (y :: xs)

/-- A run of `n` spaces (for `JSON.stringify` indentation). -/
def padN (n : Nat) : String := ⟨List.replicate n ' '⟩

/-- Embedding of `str.toUpperCase()` (basic-latin model). -/
def strToUpper (s : String) : String := ⟨s.data.map Char.toUpper⟩

/-- Embedding of `s.startsWith(p)`. -/
def strStartsWith (s p : String) : Bool := List.isPrefixOf p.data s.data

/-- Substring test used to state containment properties about emitted
HTML: `strContains h n` holds when `n` occurs contiguously in `h`. -/
def listContainsAt : List Char → List Char → Bool
  | _, [] => true
  | [], _ :: _ => false
  | hay, needle => List.isPrefixOf needle hay ||
      (match hay with
       | [] => false
       | _ :: t => listContainsAt t needle)

/-- String-level wrapper of `listContainsAt`. -/
def strContains (hay needle : String) : Bool := listContainsAt hay.data needle.data

/-- JSON value tree, the shape of schema objects carried inside a spec. -/
inductive Json where
  | null
  | bool (b : Bool)
  | num (n : Int)
  | str (s : String)
  | arr (items : List Json)
  | obj (fields : List (String × Json))
deriving Repr

/-- Hexadecimal digit for `\u00XX` escapes in JSON strings. -/
def hexDigit (n : Nat) : Char :=
  if n < 10 then Char.ofNat (48 + n) else Char.ofNat (87 + n)

/-- Escape of a single character inside a JSON string literal. -/
def jsonEscChar (c : Char) : List Char :=
  if c = quot then ['\\', quot]
  else if c = '\\' then ['\\', '\\']
  else if c = '\n' then ['\\', 'n']
  else if c = '\t' then ['\\', 't']
  else if c = '\r' then ['\\', 'r']
  else if c.toNat < 32 then
    ['\\', 'u', '0', '0', hexDigit (c.toNat / 16), hexDigit (c.toNat % 16)]
  else [c]

/-- JSON string literal with surrounding quotes. -/
def jsonQuote (s : String) : String :=
  ⟨quot :: s.data.flatMap jsonEscChar ++ [quot]⟩

mutual

/-- Embedding of `JSON.stringify(v, null, 2)` at nesting depth `d`. -/
def jsonStr (d : Nat) : Json → String
  | .null => "null"
  | .bool b => if b then "true" else "false"
  | .num n => toString n
  | .str s => jsonQuote s
  | .arr [] => "[]"
  | .arr (x :: xs) =>
      "[\n" ++ jsonStrItems d (x :: xs) ++ "\n" ++ padN (2 * d) ++ "]"
  | .obj [] => "\x7b\x7d"
  | .obj (f :: fs) =>
      "\x7b\n" ++ jsonStrFields d (f :: fs) ++ "\n" ++ padN (2 * d) ++ "\x7d"

/-- Array items of `JSON.stringify`, separated by `,\n` and indented. -/
def jsonStrItems (d : Nat) : List Json → String
  | [] => ""
  | [x] => padN (2 * (d + 1)) ++ jsonStr (d + 1) x
  | x :: y :: xs =>
      padN (2 * (d + 1)) ++ jsonStr (d + 1) x ++ ",\n" ++ jsonStrItems d (y :: xs)

/-- Object fields of `JSON.stringify`, separated by `,\n` and indented. -/
def jsonStrFields (d : Nat) : List (String × Json) → String
  | [] => ""
  | [kv] => padN (2 * (d + 1)) ++ jsonQuote kv.1 ++ ": " ++ jsonStr (d + 1) kv.2
  | kv :: kv2 :: xs =>
      padN (2 * (d + 1)) ++ jsonQuote kv.1 ++ ": " ++ jsonStr (d + 1) kv.2 ++
        ",\n" ++ jsonStrFields d (kv2 :: xs)

end

/-- Embedding of `JSON.stringify(v, null, 2)`. -/
def jsonStringify (v : Json) : String := jsonStr 0 v

/-- Schema object: only its `type` field is consulted by the renderer. -/
structure Schema where
  type : Option String
deriving Repr

/-- Parameter object (`param.in` is spelled `paramIn`: `in` is reserved). -/
structure Param where
  name : String
  paramIn : Option String
  required : Bool
  schema : Option Schema
  description : Option String
deriving Repr

/-- Media-type object inside `content` mappings. -/
structure MediaTypeObj where
  schema : Option Json
deriving Repr

/-- Response object for one status code. -/
structure ResponseObj where
  description : Option String
  content : Option (List (String × MediaTypeObj))
deriving Repr

/-- Request body object. -/
structure RequestBody where
  content : Option (List (String × MediaTypeObj))
deriving Repr

/-- Operation object: one HTTP-method entry under a path. -/
structure Operation where
  summary : Option String
  description : Option String
  parameters : Option (List Param)
  requestBody : Option RequestBody
  responses : Option (List (String × ResponseObj))
deriving Repr

/-- Contact sub-object of `info`. -/
structure Contact where
  email : Option String
  url : Option String
deriving Repr

/-- Info object of a spec. -/
structure Info where
  title : Option String
  version : Option String
  description : Option String
  contact : Option Contact
deriving Repr

/-- Components object of a spec (only `schemas` is consulted). -/
structure Components where
  schemas : Option (List (String × Json))
deriving Repr

/-- The decoded spec tree, with the fields the generator consults. -/
structure Spec where
  openapi : Option String
  swagger : Option String
  info : Option Info
  paths : Option (List (String × List (String × Operation)))
  components : Option Components
deriving Repr

/-- Render options of `generateHTML` (`RenderOptions` in the design). -/
structure GenOptions where
  theme : String
  logo : Option String
  favicon : Option String
  tryItOut : Bool
  search : Bool
  toc : Bool
  title : String
deriving Repr

/-- Escape of a single character, as performed by the chain of global
single-character replaces in `escapeHtml` (generator.js lines 421-429);
later patterns of the chain never occur in earlier replacement texts, so
the chain coincides with one per-character pass. -/
def escapeChar (c : Char) : List Char :=
  if c = '&' then "&amp;".data
  else if c = '<' then "&lt;".data
  else if c = '>' then "&gt;".data
  else if c = quot then "&quot;".data
  else if c = apos then "&#039;".data
  else [c]

/-- Embedding of `escapeHtml` (generator.js lines 421-429): falsy input
(the empty string / `undefined`, passed here as `""`) yields `""`. -/
def escapeHtml (s : String) : String :=
  if s = "" then "" else ⟨s.data.flatMap escapeChar⟩

/-- Per-character step of `slugify`: the string is lowercased and every
character outside `[a-z0-9]` becomes `-`. -/
def slugChar (c : Char) : Char :=
  let lc := Char.toLower c
  if (97 ≤ lc.toNat && lc.toNat ≤ 122) || (48 ≤ lc.toNat && lc.toNat ≤ 57)
  then lc else '-'

/-- Embedding of `slugify` (generator.js lines 431-433):
`str.toLowerCase().replace(/[^a-z0-9]/g, '-')` (basic-latin model). -/
def slugify (s : String) : String := ⟨s.data.map slugChar⟩

/-- JS truthiness of a possibly-absent JSON value (`null`, `false`, `0`,
and the empty string are falsy; arrays and objects are truthy). -/
def jsTruthyJson : Option Json → Bool
  | none => false
  | some .null => false
  | some (.bool b) => b
  | some (.num n) => !(n == 0)
  | some (.str s) => !(s == "")
  | some (.arr _) => true
  | some (.obj _) => true

/-- Embedding of `content?.['application/json']?.schema` on a `content`
mapping. -/
def lookupJsonSchema (content : Option (List (String × MediaTypeObj))) : Option Json :=
  match content with
  | none => none
  | some l => (List.lookup "application/json" l).bind MediaTypeObj.schema

/-- Embedding of `x || {}` on a possibly-absent schema value. -/
def jsonOrEmpty (o : Option Json) : Json :=
  if jsTruthyJson o then o.getD .null else Json.obj []

/-- Status-code class (generator.js line 194):
`code.startsWith('2') ? 'success' : code.startsWith('4') ? 'client' : 'server'`. -/
def responseClass (code : String) : String :=
  if strStartsWith code "2" then "success"
  else if strStartsWith code "4" then "client"
  else "server"

/-- Table-of-contents method entry (generator.js lines 112-116). -/
def tocMethodItem (path method : String) : String :=
  "\n" ++
  "                  <li class=\"method-" ++ method ++ "\">\n" ++
  "                    <a href=\"#" ++ slugify path ++ "-" ++ method ++ "\">" ++
    strToUpper method ++ "</a>\n" ++
  "                  </li>\n" ++
  "                "

/-- Table-of-contents path entry (generator.js lines 108-119). -/
def tocPathItem (path : String) (methods : List (String × Operation)) : String :=
  "\n" ++
  "            <li>\n" ++
  "              <a href=\"#" ++ slugify path ++ "\">" ++ escapeHtml path ++ "</a>\n" ++
  "              <ul>\n" ++
  "                " ++ joinMap (fun md => tocMethodItem path md.1) methods ++ "\n" ++
  "              </ul>\n" ++
  "            </li>\n" ++
  "          "

/-- Table-of-contents block (generator.js lines 104-122, the `toc ?`
template). -/
def tocNav (spec : Spec) : String :=
  "\n" ++
  "      <nav class=\"toc\">\n" ++
  "        <h3>Endpoints</h3>\n" ++
  "        <ul>\n" ++
  "          " ++ joinMap (fun pm => tocPathItem pm.1 pm.2) (spec.paths.getD []) ++ "\n" ++
  "        </ul>\n" ++
  "      </nav>\n" ++
  "      "

/-- Search box (generator.js lines 124-129, the `search ?` template). -/
def searchBox : String :=
  "\n" ++
  "      <div class=\"search\">\n" ++
  "        <input type=\"text\" id=\"search-input\" placeholder=\"Search endpoints...\">\n" ++
  "        <div id=\"search-results\"></div>\n" ++
  "      </div>\n" ++
  "      "

/-- Contact line (generator.js lines 137-142, the `spec.info?.contact ?`
template). -/
def contactSection (spec : Spec) : String :=
  match spec.info.bind Info.contact with
  | none => ""
  | some contact =>
    "\n" ++
    "          <p class=\"contact\">\n" ++
    "            " ++ ifStr contact.email (fun e =>
        "<a href=\"mailto:" ++ e ++ "\">" ++ escapeHtml e ++ "</a>") ++ "\n" ++
    "            " ++ ifStr contact.url (fun u =>
        " | <a href=\"" ++ u ++ "\" target=\"_blank\">" ++ escapeHtml u ++ "</a>") ++ "\n" ++
    "          </p>\n" ++
    "        "

/-- One parameter-table row (generator.js lines 174-182). -/
def paramRow (param : Param) : String :=
  "\n" ++
  "                        <tr>\n" ++
  "                          <td><code>" ++ escapeHtml param.name ++ "</code></td>\n" ++
  "                          <td>" ++
    escapeHtml (jsOr (param.schema.bind Schema.type) "string") ++ "</td>\n" ++
  "                          <td>" ++ escapeHtml (param.paramIn.getD "") ++ "</td>\n" ++
  "                          <td>" ++ (if param.required then "Yes" else "No") ++ "</td>\n" ++
  "                          <td>" ++ escapeHtml (jsOr param.description "-") ++ "</td>\n" ++
  "                        </tr>\n" ++
  "                      "

/-- Parameter table (generator.js lines 161-185, rendered only when
`details.parameters?.length` is truthy). -/
def paramsTable (details : Operation) : String :=
  match details.parameters with
  | some (p :: ps) =>
    "\n" ++
    "                  <h3>Parameters</h3>\n" ++
    "                  <table class=\"params\">\n" ++
    "                    <thead>\n" ++
    "                      <tr>\n" ++
    "                        <th>Name</th>\n" ++
    "                        <th>Type</th>\n" ++
    "                        <th>In</th>\n" ++
    "                        <th>Required</th>\n" ++
    "                        <th>Description</th>\n" ++
    "                      </tr>\n" ++
    "                    </thead>\n" ++
    "                    <tbody>\n" ++
    "                      " ++ joinMap paramRow (p :: ps) ++ "\n" ++
    "                    </tbody>\n" ++
    "                  </table>\n" ++
    "                "
  | _ => ""

/-- Request-body block (generator.js lines 187-190, rendered whenever
`details.requestBody` is truthy; the schema falls back to `{}`). -/
def requestBodySection (details : Operation) : String :=
  match details.requestBody with
  | none => ""
  | some rb =>
    "\n" ++
    "                  <h3>Request Body</h3>\n" ++
    "                  <pre><code class=\"language-json\">" ++
      escapeHtml (jsonStringify (jsonOrEmpty (lookupJsonSchema rb.content))) ++
      "</code></pre>\n" ++
    "                "

/-- One response block (generator.js lines 193-200). -/
def responseBlock (code : String) (response : ResponseObj) : String :=
  "\n" ++
  "                  <div class=\"response response-" ++ responseClass code ++ "\">\n" ++
  "                    <h4>" ++ code ++ " " ++
    escapeHtml (jsOr response.description "") ++ "</h4>\n" ++
  "                    " ++
    (if jsTruthyJson (lookupJsonSchema response.content) then
      "\n" ++
      "                      <pre><code class=\"language-json\">" ++
        escapeHtml (jsonStringify ((lookupJsonSchema response.content).getD .null)) ++
        "</code></pre>\n" ++
      "                    "
     else "") ++ "\n" ++
  "                  </div>\n" ++
  "                "

/-- Try-it-out block (generator.js lines 202-208; note the raw, unescaped
`path` inside the `onclick` attribute). -/
def tryItOutBlock (path method : String) : String :=
  "\n" ++
  "                  <div class=\"try-it-out\">\n" ++
  "                    <h4>Try It Out</h4>\n" ++
  "                    <button onclick=\"tryItOut(\x27" ++ method ++ "\x27, \x27" ++
    path ++ "\x27)\">Send Request</button>\n" ++
  "                    <pre id=\"response-" ++ slugify path ++ "-" ++ method ++
    "\" class=\"response-output hidden\"></pre>\n" ++
  "                  </div>\n" ++
  "                "

/-- One method sub-block of an endpoint (generator.js lines 151-210). -/
def methodBlock (tryItOut : Bool) (path : String) (md : String × Operation) : String :=
  "\n" ++
  "              <div id=\"" ++ slugify path ++ "-" ++ md.1 ++
    "\" class=\"endpoint method-" ++ md.1 ++ "\">\n" ++
  "                <div class=\"endpoint-header\">\n" ++
  "                  <span class=\"method\">" ++ strToUpper md.1 ++ "</span>\n" ++
  "                  <span class=\"path\">" ++ escapeHtml path ++ "</span>\n" ++
  "                  <span class=\"summary\">" ++
    escapeHtml (jsOr md.2.summary (jsOr md.2.description "")) ++ "</span>\n" ++
  "                </div>\n" ++
  "\n" ++
  "                " ++ ifStr md.2.description (fun d =>
      "<p class=\"description\">" ++ escapeHtml d ++ "</p>") ++ "\n" ++
  "\n" ++
  "                " ++ paramsTable md.2 ++ "\n" ++
  "\n" ++
  "                " ++ requestBodySection md.2 ++ "\n" ++
  "\n" ++
  "                <h3>Responses</h3>\n" ++
  "                " ++
    joinMap (fun cr => responseBlock cr.1 cr.2) (md.2.responses.getD []) ++ "\n" ++
  "\n" ++
  "                " ++ (if tryItOut then tryItOutBlock path md.1 else "") ++ "\n" ++
  "              </div>\n" ++
  "            "

/-- One endpoint group for a path (generator.js lines 147-212). -/
def pathGroup (tryItOut : Bool) (pm : String × List (String × Operation)) : String :=
  "\n" ++
  "          <div id=\"" ++ slugify pm.1 ++ "\" class=\"endpoint-group\">\n" ++
  "            <h2>" ++ escapeHtml pm.1 ++ "</h2>\n" ++
  "\n" ++
  "            " ++ joinMap (methodBlock tryItOut pm.1) pm.2 ++ "\n" ++
  "          </div>\n" ++
  "        "

/-- All endpoint groups, in the spec's own iteration order. -/
def endpointBlocks (tryItOut : Bool) (spec : Spec) : String :=
  joinMap (pathGroup tryItOut) (spec.paths.getD [])

/-- One schema block (generator.js lines 218-223). -/
def schemaBlock (name : String) (schema : Json) : String :=
  "\n" ++
  "            <div class=\"schema\">\n" ++
  "              <h3>" ++ escapeHtml name ++ "</h3>\n" ++
  "              <pre><code class=\"language-json\">" ++
    escapeHtml (jsonStringify schema) ++ "</code></pre>\n" ++
  "            </div>\n" ++
  "          "

/-- Schemas section (generator.js lines 215-225, rendered when
`spec.components?.schemas` is truthy — any object, even empty). -/
def schemasSection (spec : Spec) : String :=
  match spec.components.bind Components.schemas with
  | none => ""
  | some schemas =>
    "\n" ++
    "        <section class=\"schemas\">\n" ++
    "          <h2>Schemas</h2>\n" ++
    "          " ++ joinMap (fun ns => schemaBlock ns.1 ns.2) schemas ++ "\n" ++
    "        </section>\n" ++
    "      "

/-- Embedding of `generateHTML` (generator.js lines 81-233). -/
def generateHTML (spec : Spec) (options : GenOptions) : String :=
  "<!DOCTYPE html>\n" ++
  "<html lang=\"en\">\n" ++
  "<head>\n" ++
  "  <meta charset=\"UTF-8\">\n" ++
  "  <meta name=\"viewport\" content=\"width=device-width, initial-scale=1.0\">\n" ++
  "  <title>" ++ escapeHtml options.title ++ "</title>\n" ++
  "  " ++ ifStr options.favicon (fun f =>
      "<link rel=\"icon\" href=\"" ++ f ++ "\">") ++ "\n" ++
  "  <link rel=\"stylesheet\" href=\"/assets/style.css\">\n" ++
  "  <link rel=\"stylesheet\" href=\"https://cdnjs.cloudflare.com/ajax/libs/highlight.js/11.9.0/styles/github-dark.min.css\">\n" ++
  "</head>\n" ++
  "<body class=\"theme-" ++ options.theme ++ "\">\n" ++
  "  <div class=\"container\">\n" ++
  "    <!-- Sidebar -->\n" ++
  "    <aside class=\"sidebar\">\n" ++
  "      <div class=\"sidebar-header\">\n" ++
  "        " ++ ifStr options.logo (fun l =>
      "<img src=\"" ++ l ++ "\" alt=\"Logo\" class=\"logo\">") ++ "\n" ++
  "        <h1>" ++ escapeHtml (jsOr (spec.info.bind Info.title) "API Documentation") ++
    "</h1>\n" ++
  "        <p class=\"version\">" ++
    escapeHtml (jsOr (spec.info.bind Info.version) "1.0.0") ++ "</p>\n" ++
  "      </div>\n" ++
  "\n" ++
  "      " ++ (if options.toc then tocNav spec else "") ++ "\n" ++
  "\n" ++
  "      " ++ (if options.search then searchBox else "") ++ "\n" ++
  "    </aside>\n" ++
  "\n" ++
  "    <!-- Main Content -->\n" ++
  "    <main class=\"content\">\n" ++
  "      <header class=\"header\">\n" ++
  "        <h1>" ++ escapeHtml options.title ++ "</h1>\n" ++
  "        <p class=\"description\">" ++
    escapeHtml (jsOr (spec.info.bind Info.description) "") ++ "</p>\n" ++
  "        " ++ contactSection spec ++ "\n" ++
  "      </header>\n" ++
  "\n" ++
  "      <!-- Endpoints -->\n" ++
  "      <section class=\"endpoints\">\n" ++
  "        " ++ endpointBlocks options.tryItOut spec ++ "\n" ++
  "      </section>\n" ++
  "\n" ++
  "      " ++ schemasSection spec ++ "\n" ++
  "    </main>\n" ++
  "  </div>\n" ++
  "\n" ++
  "  <script src=\"https://cdnjs.cloudflare.com/ajax/libs/highlight.js/11.9.0/highlight.min.js\"></script>\n" ++
  "  <script src=\"/assets/app.js\"></script>\n" ++
  "</body>\n" ++
  "</html>"

/-- Theme color table shape (getCSS, generator.js lines 254-283). -/
structure ThemeColors where
  bg : String
  text : String
  sidebar : String
  border : String
  code : String
deriving Repr, DecidableEq

/-- The `light` color table. -/
def colorsLight : ThemeColors :=
  { bg := "#ffffff", text := "#333333", sidebar := "#f8f9fa",
    border := "#e1e4e8", code := "#f6f8fa" }

/-- The `dark` color table. -/
def colorsDark : ThemeColors :=
  { bg := "#1a1a1a", text := "#e6e6e6", sidebar := "#242424",
    border := "#3a3a3a", code := "#2d2d2d" }

/-- The `dracula` color table. -/
def colorsDracula : ThemeColors :=
  { bg := "#282a36", text := "#f8f8f2", sidebar := "#21222c",
    border := "#44475a", code := "#44475a" }

/-- The `github` color table. -/
def colorsGithub : ThemeColors :=
  { bg := "#ffffff", text := "#24292f", sidebar := "#f6f8fa",
    border := "#d0d7de", code := "#f6f8fa" }

/-- The `colors` object of `getCSS`, as an association list. -/
def colorsTable : List (String × ThemeColors) :=
  [("light", colorsLight), ("dark", colorsDark),
   ("dracula", colorsDracula), ("github", colorsGithub)]

/-- The CSS template of `getCSS` (generator.js lines 287-359),
parameterized by the selected color table `c`. -/
def cssBody (c : ThemeColors) : String :=
  "\n" ++
  "* \x7b box-sizing: border-box; margin: 0; padding: 0; \x7d\n" ++
  "body \x7b font-family: -apple-system, BlinkMacSystemFont, \x27Segoe UI\x27, Roboto, sans-serif; background: " ++ c.bg ++ "; color: " ++ c.text ++ "; line-height: 1.6; \x7d\n" ++
  ".container \x7b display: flex; min-height: 100vh; \x7d\n" ++
  "\n" ++
  "/* Sidebar */\n" ++
  ".sidebar \x7b width: 300px; background: " ++ c.sidebar ++ "; border-right: 1px solid " ++ c.border ++ "; padding: 20px; position: sticky; top: 0; height: 100vh; overflow-y: auto; \x7d\n" ++
  ".sidebar-header h1 \x7b font-size: 1.2rem; margin: 10px 0 5px; \x7d\n" ++
  ".sidebar-header .version \x7b font-size: 0.9rem; opacity: 0.7; \x7d\n" ++
  ".logo \x7b max-height: 40px; margin-bottom: 10px; \x7d\n" ++
  "\n" ++
  "/* TOC */\n" ++
  ".toc \x7b margin-top: 20px; \x7d\n" ++
  ".toc h3 \x7b font-size: 0.9rem; text-transform: uppercase; opacity: 0.7; margin-bottom: 10px; \x7d\n" ++
  ".toc ul \x7b list-style: none; \x7d\n" ++
  ".toc li \x7b margin: 5px 0; \x7d\n" ++
  ".toc a \x7b color: " ++ c.text ++ "; text-decoration: none; display: block; padding: 5px; border-radius: 4px; \x7d\n" ++
  ".toc a:hover \x7b background: " ++ c.border ++ "; \x7d\n" ++
  ".method-get \x7b color: #10b981; \x7d\n" ++
  ".method-post \x7b color: #3b82f6; \x7d\n" ++
  ".method-put \x7b color: #f59e0b; \x7d\n" ++
  ".method-delete \x7b color: #ef4444; \x7d\n" ++
  ".method-patch \x7b color: #8b5cf6; \x7d\n" ++
  "\n" ++
  "/* Search */\n" ++
  ".search \x7b margin-top: 20px; \x7d\n" ++
  ".search input \x7b width: 100%; padding: 10px; border: 1px solid " ++ c.border ++ "; border-radius: 6px; background: " ++ c.bg ++ "; color: " ++ c.text ++ "; \x7d\n" ++
  "#search-results \x7b margin-top: 10px; max-height: 200px; overflow-y: auto; \x7d\n" ++
  ".search-result \x7b padding: 10px; cursor: pointer; border-radius: 4px; \x7d\n" ++
  ".search-result:hover \x7b background: " ++ c.border ++ "; \x7d\n" ++
  "\n" ++
  "/* Content */\n" ++
  ".content \x7b flex: 1; padding: 40px; max-width: 1200px; \x7d\n" ++
  ".header \x7b margin-bottom: 40px; border-bottom: 1px solid " ++ c.border ++ "; padding-bottom: 20px; \x7d\n" ++
  ".header h1 \x7b font-size: 2.5rem; margin-bottom: 10px; \x7d\n" ++
  "\n" ++
  ".endpoint-group \x7b margin-bottom: 40px; \x7d\n" ++
  ".endpoint \x7b background: " ++ c.code ++ "; border-radius: 8px; padding: 20px; margin-bottom: 20px; \x7d\n" ++
  ".endpoint-header \x7b display: flex; align-items: center; gap: 15px; margin-bottom: 15px; \x7d\n" ++
  ".method \x7b padding: 4px 12px; border-radius: 4px; font-weight: bold; font-size: 0.85rem; text-transform: uppercase; \x7d\n" ++
  ".method-get \x7b background: #10b981; color: white; \x7d\n" ++
  ".method-post \x7b background: #3b82f6; color: white; \x7d\n" ++
  ".method-put \x7b background: #f59e0b; color: white; \x7d\n" ++
  ".method-delete \x7b background: #ef4444; color: white; \x7d\n" ++
  ".method-patch \x7b background: #8b5cf6; color: white; \x7d\n" ++
  ".path \x7b font-family: monospace; background: " ++ c.border ++ "; padding: 4px 8px; border-radius: 4px; \x7d\n" ++
  ".summary \x7b flex: 1; \x7d\n" ++
  "\n" ++
  ".params \x7b width: 100%; border-collapse: collapse; margin: 15px 0; \x7d\n" ++
  ".params th, .params td \x7b text-align: left; padding: 12px; border-bottom: 1px solid " ++ c.border ++ "; \x7d\n" ++
  ".params th \x7b font-weight: 600; opacity: 0.7; \x7d\n" ++
  ".params code \x7b background: " ++ c.border ++ "; padding: 2px 6px; border-radius: 3px; \x7d\n" ++
  "\n" ++
  ".response \x7b margin: 15px 0; padding: 15px; border-radius: 6px; border-left: 4px solid; \x7d\n" ++
  ".response-success \x7b border-color: #10b981; background: rgba(16, 185, 129, 0.1); \x7d\n" ++
  ".response-client \x7b border-color: #f59e0b; background: rgba(245, 158, 11, 0.1); \x7d\n" ++
  ".response-server \x7b border-color: #ef4444; background: rgba(239, 68, 68, 0.1); \x7d\n" ++
  "\n" ++
  "pre \x7b background: " ++ c.code ++ "; padding: 15px; border-radius: 6px; overflow-x: auto; margin: 10px 0; \x7d\n" ++
  "code \x7b font-family: \x27Fira Code\x27, monospace; font-size: 0.9rem; \x7d\n" ++
  "\n" ++
  ".try-it-out \x7b margin-top: 15px; \x7d\n" ++
  ".try-it-out button \x7b padding: 10px 20px; background: #3b82f6; color: white; border: none; border-radius: 6px; cursor: pointer; \x7d\n" ++
  ".try-it-out button:hover \x7b background: #2563eb; \x7d\n" ++
  ".response-output \x7b margin-top: 10px; \x7d\n" ++
  ".hidden \x7b display: none; \x7d\n" ++
  "\n" ++
  "@media (max-width: 768px) \x7b\n" ++
  "  .container \x7b flex-direction: column; \x7d\n" ++
  "  .sidebar \x7b width: 100%; height: auto; position: relative; \x7d\n" ++
  "  .content \x7b padding: 20px; \x7d\n" ++
  "\x7d\n"

/-- Result of the JS property access `colors[theme]` on the object
literal of `getCSS`: an own property yields its color table; a name
inherited from `Object.prototype` yields that (truthy) member, whose
color fields are all `undefined`; any other name yields `undefined`. -/
inductive JsLookup where
  | table (c : ThemeColors)
  | protoMember
  | missing
deriving Repr, DecidableEq

/-- Property names an object literal inherits from `Object.prototype`
(all of them truthy functions, except `__proto__` whose getter returns
the truthy `Object.prototype` itself). -/
def objectProtoProps : List String :=
  ["constructor", "hasOwnProperty", "isPrototypeOf", "propertyIsEnumerable",
   "toLocaleString", "toString", "valueOf", "__proto__",
   "__defineGetter__", "__defineSetter__", "__lookupGetter__",
   "__lookupSetter__"]

/-- Embedding of `colors[theme]`, prototype chain included: own
properties first, then `Object.prototype` members, else `undefined`. -/
def colorsLookup (theme : String) : JsLookup :=
  match List.lookup theme colorsTable with
  | some c => .table c
  | none => if theme ∈ objectProtoProps then .protoMember else .missing

/-- Color record seen through a non-table truthy object: every member
access (`c.bg`, `c.text`, …) yields `undefined`, which the template
literal splices as the string `undefined`. -/
def undefinedColors : ThemeColors :=
  { bg := "undefined", text := "undefined", sidebar := "undefined",
    border := "undefined", code := "undefined" }

/-- Embedding of `getCSS` (generator.js lines 253-360):
`const c = colors[theme] || colors.light` then the template.  When
`colors[theme]` is a truthy `Object.prototype` member the fallback is
not taken and every color splices as `undefined`. -/
def getCSS (theme : String) : String :=
  match colorsLookup theme with
  | .table c => cssBody c
  | .protoMember => cssBody undefinedColors
  | .missing => cssBody colorsLight

/-- One entry of the search index. -/
structure SearchEntry where
  path : String
  method : String
  title : String
  description : String
  slug : String
deriving Repr, DecidableEq

/-- The search index object (`{ index }`). -/
structure SearchIndex where
  index : List SearchEntry
deriving Repr, DecidableEq

/-- Embedding of `generateSearchIndex` (generator.js lines 235-251): two
nested `for` loops pushing one entry per `(path, method)` pair onto a
single array. -/
def generateSearchIndex (spec : Spec) : SearchIndex :=
  { index := (spec.paths.getD []).foldl (fun acc pm =>
      pm.2.foldl (fun acc2 md =>
        acc2 ++ [{ path := pm.1,
                   method := md.1,
                   title := jsOr md.2.summary (jsOr md.2.description pm.1),
                   description := jsOr md.2.description "",
                   slug := slugify pm.1 ++ "-" ++ md.1 }]) acc) [] }

/-- JS truthiness of a possibly-absent string. -/
def jsTruthyStr : Option String → Bool
  | some s => !(s == "")
  | none => false

/-- Result shape of `validateSpec`. -/
structure ValidationResult where
  valid : Bool
  errors : List String
deriving Repr, DecidableEq

/-- Embedding of `validateSpec` (parser.js): three presence checks each
pushing one error string; `valid` is `errors.length === 0`. -/
def validateSpec (spec : Spec) : ValidationResult :=
  let errors :=
    (if !jsTruthyStr spec.openapi && !jsTruthyStr spec.swagger
     then ["Missing openapi or swagger version"] else []) ++
    (if !spec.info.isSome then ["Missing info object"] else []) ++
    (if !spec.paths.isSome then ["Missing paths object"] else [])
  { valid := errors.length == 0, errors := errors }

/-- Decode failures of `parseSpec`: the file is missing, or the selected
decoder rejects the content. -/
inductive ParseError where
  | notFound
  | decode (msg : String)
deriving Repr, DecidableEq

/-- Split of a character list at `.` separators (the list-level engine
of `inputPath.split('.')`, written structurally so it computes by
`decide`). -/
def splitDot : List Char → List (List Char)
  | [] => [[]]
  | c :: cs =>
    if c = '.' then [] :: splitDot cs
    else
      match splitDot cs with
      | [] => [[c]]
      | t :: ts => (c :: t) :: ts

/-- Embedding of `inputPath.split('.').pop()`: the segment after the
last dot (the whole path when it has no dot). -/
def extOf (inputPath : String) : String :=
  ⟨(splitDot inputPath.data).getLastD []⟩

/-- Embedding of `parseSpec` (parser.js / generator.js lines 71-79).  The
file system (`readFileSync`) and the two external decoders (`yaml.parse`,
`JSON.parse`) are not repository code; they are passed as parameters:
`fileContent` maps a path to its content when the file exists, and each
decoder either produces a spec tree or rejects the content with a
message. -/
def parseSpec (yamlDecode jsonDecode : String → Except String Spec)
    (fileContent : String → Option String) (inputPath : String) :
    Except ParseError Spec :=
  match fileContent inputPath with
  | none => .error .notFound
  | some content =>
    let ext := extOf inputPath
    match (if ext = "yaml" ∨ ext = "yml"
           then yamlDecode content else jsonDecode content) with
    | .ok spec => .ok spec
    | .error msg => .error (.decode msg)

/-- Anchor derivation written from the spec's own words (section 4.2 of
the design note): the path is lowercased, then every character outside
`[a-z0-9]` is replaced by `-`.  Stated separately from `slugify` so the
two can be compared. -/
def specSlug (s : String) : String :=
  ⟨(s.data.map Char.toLower).map
    (fun c => if ((97 ≤ c.toNat ∧ c.toNat ≤ 122) ∨ (48 ≤ c.toNat ∧ c.toNat ≤ 57))
              then c else '-')⟩

/-- A spec with every consulted field absent. -/
def specMissingAll : Spec :=
  { openapi := none, swagger := none, info := none, paths := none,
    components := none }

/-- A spec containing only a `paths` mapping. -/
def specOnlyPaths : Spec :=
  { openapi := none, swagger := none, info := none, paths := some [],
    components := none }

/-- The operation of the README quick-start example. -/
def exampleOp : Operation :=
  { summary := some "List users", description := none, parameters := none,
    requestBody := none,
    responses := some [("200", { description := some "Success", content := none })] }

/-- The spec of the README quick-start example. -/
def exampleSpec : Spec :=
  { openapi := some "3.0.0", swagger := none,
    info := some { title := some "My API", version := some "1.0.0",
                   description := none, contact := none },
    paths := some [("/users", [("get", exampleOp)])],
    components := none }

/-- Default render options for the example spec. -/
def exampleOptions : GenOptions :=
  { theme := "light", logo := none, favicon := none, tryItOut := false,
    search := true, toc := true, title := "My API" }

/-- A path containing an apostrophe and an angle bracket. -/
def trickyPath : String := "/a\x27<b"

/-- The example spec with the tricky path, for probing escaping. -/
def trickySpec : Spec :=
  { openapi := some "3.0.0", swagger := none, info := none,
    paths := some [(trickyPath, [("get", exampleOp)])],
    components := none }

/-- Render options with `tryItOut` enabled. -/
def tryItOutOptions : GenOptions :=
  { theme := "light", logo := none, favicon := none, tryItOut := true,
    search := false, toc := false, title := "T" }

/-- A request body carrying only a `text/plain` media type. -/
def plainBody : RequestBody :=
  { content := some [("text/plain", { schema := some (Json.str "raw") })] }

/-- An operation whose request body is `plainBody`: present, but with no
`application/json` schema. -/
def plainBodyOp : Operation :=
  { summary := none, description := none, parameters := none,
    requestBody := some plainBody,
    responses := none }

/-- A parameter with no schema and no description. -/
def bareParam : Param :=
  { name := "id", paramIn := some "path", required := true,
    schema := none, description := none }

/-- A stub decoder that accepts everything (stands in for an external
decoder in `parseSpec` witnesses). -/
def acceptDecoder : String → Except String Spec := fun _ => .ok specMissingAll

/-- A stub decoder that rejects everything. -/
def rejectDecoder : String → Except String Spec := fun _ => .error "bad syntax"

/-- A one-file file system mapping `api.yaml` to some content. -/
def oneYamlFile : String → Option String :=
  fun p => if p = "api.yaml" then some "spec-text" else none

/-! Library of small lemmas about the string helpers, used by the claim
theorems below. -/

/-- Absence of a raw apostrophe in a string. -/
def noApos (s : String) : Prop := apos ∉ s.data

/-- Absence of a raw apostrophe in a possibly-absent string. -/
def noAposOpt (o : Option String) : Prop := ∀ s, o = some s → noApos s

instance (s : String) : Decidable (noApos s) :=
  inferInstanceAs (Decidable (apos ∉ s.data))

theorem noApos_empty : noApos "" := by
  intro h
  simp [String.data] at h

theorem noApos_append {a b : String} : noApos (a ++ b) ↔ noApos a ∧ noApos b := by
  simp [noApos, String.data_append, List.mem_append, not_or]

theorem noApos_joinMap {α : Type} {f : α → String} {l : List α}
    (h : ∀ x ∈ l, noApos (f x)) : noApos (joinMap f l) := by
  induction l with
  | nil => exact noApos_empty
  | cons x xs ih =>
    rw [joinMap, noApos_append]
    exact ⟨h x (by simp), ih (fun y hy => h y (by simp [hy]))⟩

theorem char_ofNat_toNat (n : Nat) (h : n.isValidChar) : (Char.ofNat n).toNat = n := by
  unfold Char.ofNat
  rw [dif_pos h]
  simp [Char.ofNatAux, Char.toNat, UInt32.toNat]

theorem apos_not_mem_escapeChar (c : Char) : apos ∉ escapeChar c := by
  unfold escapeChar
  split_ifs with h1 h2 h3 h4 h5
  · decide
  · decide
  · decide
  · decide
  · decide
  · simp only [List.mem_singleton]
    exact fun h => h5 h.symm

theorem noApos_escapeHtml (s : String) : noApos (escapeHtml s) := by
  unfold escapeHtml
  split
  · exact noApos_empty
  · show apos ∉ s.data.flatMap escapeChar
    simp only [List.mem_flatMap, not_exists, not_and]
    exact fun a _ => apos_not_mem_escapeChar a

theorem slugChar_ne_apos (c : Char) : slugChar c ≠ apos := by
  have hrw : slugChar c =
      if (97 ≤ (Char.toLower c).toNat && (Char.toLower c).toNat ≤ 122 ||
          (48 ≤ (Char.toLower c).toNat && (Char.toLower c).toNat ≤ 57))
      then Char.toLower c else '-' := rfl
  rw [hrw]
  split
  · next hcond =>
    intro h
    rw [h] at hcond
    simp only [Bool.or_eq_true, Bool.and_eq_true, decide_eq_true_eq] at hcond
    have : apos.toNat = 39 := by decide
    omega
  · decide

theorem noApos_slugify (s : String) : noApos (slugify s) := by
  show apos ∉ s.data.map slugChar
  simp only [List.mem_map, not_exists, not_and]
  exact fun c _ h => slugChar_ne_apos c h

theorem toUpper_ne_apos (c : Char) (h : c ≠ apos) : Char.toUpper c ≠ apos := by
  unfold Char.toUpper
  by_cases hc : c.toNat ≥ 97 ∧ c.toNat ≤ 122
  · rw [if_pos hc]
    intro heq
    have hv : (c.toNat - 32).isValidChar := Or.inl (by omega)
    have h2 := char_ofNat_toNat (c.toNat - 32) hv
    rw [heq] at h2
    have : apos.toNat = 39 := by decide
    omega
  · rw [if_neg hc]
    exact h

theorem noApos_strToUpper {s : String} (h : noApos s) : noApos (strToUpper s) := by
  show apos ∉ s.data.map Char.toUpper
  simp only [List.mem_map, not_exists, not_and]
  intro c hc heq
  exact toUpper_ne_apos c (fun hca => h (hca ▸ hc)) heq

theorem noApos_jsOr {o : Option String} {b : String}
    (ho : noAposOpt o) (hb : noApos b) : noApos (jsOr o b) := by
  cases o with
  | none => exact hb
  | some s =>
    simp only [jsOr]
    split
    · exact hb
    · exact ho s rfl

theorem noApos_ifStr {o : Option String} {f : String → String}
    (h : ∀ s, o = some s → noApos (f s)) : noApos (ifStr o f) := by
  cases o with
  | none => exact noApos_empty
  | some s =>
    simp only [ifStr]
    split
    · exact noApos_empty
    · exact h s rfl

theorem startsWith2_4_absurd {code : String}
    (h2 : strStartsWith code "2" = true)
    (h4 : strStartsWith code "4" = true) : False := by
  unfold strStartsWith at h2 h4
  rw [List.isPrefixOf_iff_prefix] at h2 h4
  obtain ⟨t2, ht2⟩ := h2
  obtain ⟨t4, ht4⟩ := h4
  have h := ht2.trans ht4.symm
  simp at h

/-- C3: status-code bucketing.  A response code starting with `2` is
classed `success`, one starting with `4` is classed `client`, and every
other code — including `3xx` and `5xx` — is classed `server`; in
particular `200`, `301`, `404`, `500` give `success`, `server`,
`client`, `server`, and the class is the string spliced into the
rendered response block after `response-`. -/
theorem claim3_statusCodeBucketing :
    (∀ code : String,
      (strStartsWith code "2" = true → responseClass code = "success") ∧
      (strStartsWith code "4" = true → responseClass code = "client") ∧
      (strStartsWith code "2" = false → strStartsWith code "4" = false →
        responseClass code = "server")) ∧
    responseClass "200" = "success" ∧ responseClass "301" = "server" ∧
    responseClass "404" = "client" ∧ responseClass "500" = "server" ∧
    (∀ (code : String) (response : ResponseObj), ∃ rest,
      responseBlock code response =
        "\n" ++ "                  <div class=\"response response-" ++
          responseClass code ++ rest) := by
  refine ⟨fun code => ⟨?_, ?_, ?_⟩, by decide, by decide, by decide, by decide,
    fun code response => ⟨"\">\n" ++
      "                    <h4>" ++ code ++ " " ++
        escapeHtml (jsOr response.description "") ++ "</h4>\n" ++
      "                    " ++
        (if jsTruthyJson (lookupJsonSchema response.content) then
          "\n" ++
          "                      <pre><code class=\"language-json\">" ++
            escapeHtml (jsonStringify ((lookupJsonSchema response.content).getD .null)) ++
            "</code></pre>\n" ++
          "                    "
         else "") ++ "\n" ++
      "                  </div>\n" ++
      "                ", by simp only [responseBlock, String.append_assoc]⟩⟩
  · intro h
    simp [responseClass, h]
  · intro h4
    have h2 : strStartsWith code "2" = false := by
      by_contra hc
      exact startsWith2_4_absurd (by simpa using hc) h4
    simp [responseClass, h2, h4]
  · intro h2 h4
    simp [responseClass, h2, h4]

/-- Witness for C3 at concrete status codes. -/
theorem claim3_witness :
    responseClass "201" = "success" ∧ responseClass "418" = "client" := by
  refine ⟨(claim3_statusCodeBucketing.1 "201").1 (by decide),
          (claim3_statusCodeBucketing.1 "418").2.1 (by decide)⟩

/-- C5 counterexample: `constructor` is outside the four known theme
names, yet `colors["constructor"]` hits the truthy `Object.prototype`
member, the `|| colors.light` fallback is skipped, and the emitted CSS
carries `undefined` colors instead of the light table — refuting
"getCSS returns the same CSS string as getCSS('light')" for every
unknown name. -/
theorem claim5_counterexample :
    ("constructor" ≠ "light" ∧ "constructor" ≠ "dark" ∧
     "constructor" ≠ "dracula" ∧ "constructor" ≠ "github") ∧
    getCSS "constructor" ≠ getCSS "light" ∧
    strContains (getCSS "constructor") "background: undefined" = true := by
  refine ⟨⟨by decide, by decide, by decide, by decide⟩, by decide, by decide⟩

/-- C5 amended: stylesheet generation never fails for any theme name;
a name outside the four known tables that is not an `Object.prototype`
property name falls back to the `light` table, each known name selects
its own fixed color table, and a name inherited from
`Object.prototype` (such as `constructor`, `toString`, `__proto__`)
skips the fallback and produces the CSS template with every color
spliced as the string `undefined`. -/
theorem claim5_prototypeAmended :
    (∀ theme : String, theme ≠ "light" → theme ≠ "dark" → theme ≠ "dracula" →
      theme ≠ "github" → theme ∉ objectProtoProps →
      getCSS theme = getCSS "light") ∧
    getCSS "light" = cssBody colorsLight ∧
    getCSS "dark" = cssBody colorsDark ∧
    getCSS "dracula" = cssBody colorsDracula ∧
    getCSS "github" = cssBody colorsGithub ∧
    (∀ theme : String, theme ∈ objectProtoProps →
      getCSS theme = cssBody undefinedColors) := by
  refine ⟨?_, rfl, rfl, rfl, rfl, ?_⟩
  · intro theme h1 h2 h3 h4 h5
    have e1 : (theme == "light") = false := beq_eq_false_iff_ne.mpr h1
    have e2 : (theme == "dark") = false := beq_eq_false_iff_ne.mpr h2
    have e3 : (theme == "dracula") = false := beq_eq_false_iff_ne.mpr h3
    have e4 : (theme == "github") = false := beq_eq_false_iff_ne.mpr h4
    simp only [getCSS, colorsLookup, colorsTable, List.lookup, e1, e2, e3, e4]
    rw [if_neg h5]
    rfl
  · intro theme h
    fin_cases h <;> rfl

/-- Witness for the amended C5: a plain unknown name falls back to the
light table, and a prototype-chain name yields the `undefined` CSS. -/
theorem claim5_amendedWitness :
    getCSS "solarized" = getCSS "light" ∧
    getCSS "toString" = cssBody undefinedColors :=
  ⟨claim5_prototypeAmended.1 "solarized" (by decide) (by decide) (by decide)
     (by decide) (by decide),
   claim5_prototypeAmended.2.2.2.2.2 "toString" (by decide)⟩

/-- C10: defaults in the parameter table.  The Type cell shows the
parameter's `schema.type` when that is present (a nonempty string) and
the literal `string` when absent; the Description cell shows the
description when present and `-` when absent; the Required cell shows
`Yes` exactly when `required` is truthy and `No` otherwise. -/
theorem claim10_paramCellDefaults :
    (∀ param : Param, paramRow param =
      "\n" ++
      "                        <tr>\n" ++
      "                          <td><code>" ++ escapeHtml param.name ++ "</code></td>\n" ++
      "                          <td>" ++
        escapeHtml (jsOr (param.schema.bind Schema.type) "string") ++ "</td>\n" ++
      "                          <td>" ++ escapeHtml (param.paramIn.getD "") ++ "</td>\n" ++
      "                          <td>" ++ (if param.required then "Yes" else "No") ++ "</td>\n" ++
      "                          <td>" ++ escapeHtml (jsOr param.description "-") ++ "</td>\n" ++
      "                        </tr>\n" ++
      "                      ") ∧
    (∀ param : Param, param.schema.bind Schema.type = none →
      escapeHtml (jsOr (param.schema.bind Schema.type) "string") = "string") ∧
    (∀ param : Param, ∀ t, param.schema.bind Schema.type = some t → t ≠ "" →
      escapeHtml (jsOr (param.schema.bind Schema.type) "string") = escapeHtml t) ∧
    (∀ param : Param, param.description = none →
      escapeHtml (jsOr param.description "-") = "-") ∧
    (∀ param : Param, ∀ d, param.description = some d → d ≠ "" →
      escapeHtml (jsOr param.description "-") = escapeHtml d) ∧
    (∀ param : Param, param.required = true →
      (if param.required then "Yes" else "No") = "Yes") ∧
    (∀ param : Param, param.required = false →
      (if param.required then "Yes" else "No") = "No") := by
  refine ⟨fun param => rfl, ?_, ?_, ?_, ?_, ?_, ?_⟩
  · intro p h
    rw [h]
    decide
  · intro p t h hne
    rw [h]
    simp [jsOr, hne]
  · intro p h
    rw [h]
    decide
  · intro p d h hne
    rw [h]
    simp [jsOr, hne]
  · intro p h
    rw [h]
    rfl
  · intro p h
    rw [h]
    rfl

/-- Witness for C10 at a parameter with no schema and no description. -/
theorem claim10_witness :
    escapeHtml (jsOr (bareParam.schema.bind Schema.type) "string") = "string" ∧
    escapeHtml (jsOr bareParam.description "-") = "-" ∧
    (if bareParam.required then "Yes" else "No") = "Yes" :=
  ⟨claim10_paramCellDefaults.2.1 bareParam rfl,
   claim10_paramCellDefaults.2.2.2.1 bareParam rfl,
   claim10_paramCellDefaults.2.2.2.2.2.1 bareParam rfl⟩

/-- C8: `validateSpec` pushes one error string per failing presence
check, `valid` holds exactly when the error list is empty, a spec missing
all three reports exactly the three error strings, and a spec containing
only `paths` reports exactly two. -/
theorem claim8_validateSpecChecks :
    ∀ spec : Spec,
      ((validateSpec spec).valid = true ↔ (validateSpec spec).errors = []) ∧
      ((validateSpec spec).errors.length =
        (if !jsTruthyStr spec.openapi && !jsTruthyStr spec.swagger then 1 else 0) +
        (if !spec.info.isSome then 1 else 0) +
        (if !spec.paths.isSome then 1 else 0)) ∧
      (jsTruthyStr spec.openapi = false → jsTruthyStr spec.swagger = false →
        spec.info = none → spec.paths = none →
        (validateSpec spec).errors =
          ["Missing openapi or swagger version", "Missing info object",
           "Missing paths object"] ∧
        (validateSpec spec).valid = false) ∧
      (jsTruthyStr spec.openapi = false → jsTruthyStr spec.swagger = false →
        spec.info = none → spec.paths.isSome = true →
        (validateSpec spec).errors =
          ["Missing openapi or swagger version", "Missing info object"] ∧
        (validateSpec spec).valid = false) := by
  intro spec
  refine ⟨?_, ?_, ?_, ?_⟩
  · simp only [validateSpec, beq_iff_eq]
    constructor
    · intro h
      exact List.length_eq_zero.mp h
    · intro h
      rw [h]
      rfl
  · simp only [validateSpec]
    split_ifs <;> simp
  · intro h1 h2 h3 h4
    simp [validateSpec, h1, h2, h3, h4]
  · intro h1 h2 h3 h4
    simp [validateSpec, h1, h2, h3, h4]

/-- Witness for C8 at a spec missing everything and a spec with only
`paths`. -/
theorem claim8_witness :
    (validateSpec specMissingAll).errors =
      ["Missing openapi or swagger version", "Missing info object",
       "Missing paths object"] ∧
    (validateSpec specMissingAll).valid = false ∧
    (validateSpec specOnlyPaths).errors =
      ["Missing openapi or swagger version", "Missing info object"] ∧
    (validateSpec specOnlyPaths).valid = false := by
  have h1 := (claim8_validateSpecChecks specMissingAll).2.2.1 rfl rfl rfl rfl
  have h2 := (claim8_validateSpecChecks specOnlyPaths).2.2.2 rfl rfl rfl rfl
  exact ⟨h1.1, h1.2, h2.1, h2.2⟩

theorem slugChar_eq (c : Char) :
    slugChar c =
      ((fun c : Char =>
        if ((97 ≤ c.toNat ∧ c.toNat ≤ 122) ∨ (48 ≤ c.toNat ∧ c.toNat ≤ 57))
        then c else '-') ∘ Char.toLower) c := by
  have hrw : slugChar c =
      if (97 ≤ (Char.toLower c).toNat && (Char.toLower c).toNat ≤ 122 ||
          (48 ≤ (Char.toLower c).toNat && (Char.toLower c).toNat ≤ 57))
      then Char.toLower c else '-' := rfl
  rw [hrw]
  simp only [Function.comp, Bool.or_eq_true, Bool.and_eq_true, decide_eq_true_eq]

/-- C6: anchor identifiers.  `slugify` equals the spec-worded derivation
`specSlug` (lowercase, then replace every character outside `[a-z0-9]`
by `-`) on every string, the endpoint-group anchor is `slugify path`,
and the method-level anchor is `slugify path ++ "-" ++ method`. -/
theorem claim6_anchorSlugs :
    (∀ s : String, slugify s = specSlug s) ∧
    (∀ (tryItOut : Bool) (path : String) (methods : List (String × Operation)),
      ∃ rest, pathGroup tryItOut (path, methods) =
        "\n" ++ "          <div id=\"" ++ slugify path ++ rest) ∧
    (∀ (tryItOut : Bool) (path : String) (md : String × Operation),
      ∃ rest, methodBlock tryItOut path md =
        "\n" ++ "              <div id=\"" ++ (slugify path ++ "-" ++ md.1) ++ rest) := by
  refine ⟨?_, ?_, ?_⟩
  · intro s
    apply String.ext
    show s.data.map slugChar = (s.data.map Char.toLower).map _
    rw [List.map_map]
    exact congrArg (fun f => List.map f s.data) (funext slugChar_eq)
  · intro tryItOut path methods
    refine ⟨"\" class=\"endpoint-group\">\n" ++
      "            <h2>" ++ escapeHtml path ++ "</h2>\n" ++
      "\n" ++
      "            " ++ joinMap (methodBlock tryItOut path) methods ++ "\n" ++
      "          </div>\n" ++
      "        ", ?_⟩
    simp only [pathGroup, String.append_assoc]
  · intro tryItOut path md
    refine ⟨"\" class=\"endpoint method-" ++ md.1 ++ "\">\n" ++
      "                <div class=\"endpoint-header\">\n" ++
      "                  <span class=\"method\">" ++ strToUpper md.1 ++ "</span>\n" ++
      "                  <span class=\"path\">" ++ escapeHtml path ++ "</span>\n" ++
      "                  <span class=\"summary\">" ++
        escapeHtml (jsOr md.2.summary (jsOr md.2.description "")) ++ "</span>\n" ++
      "                </div>\n" ++
      "\n" ++
      "                " ++ ifStr md.2.description (fun d =>
          "<p class=\"description\">" ++ escapeHtml d ++ "</p>") ++ "\n" ++
      "\n" ++
      "                " ++ paramsTable md.2 ++ "\n" ++
      "\n" ++
      "                " ++ requestBodySection md.2 ++ "\n" ++
      "\n" ++
      "                <h3>Responses</h3>\n" ++
      "                " ++
        joinMap (fun cr => responseBlock cr.1 cr.2) (md.2.responses.getD []) ++ "\n" ++
      "\n" ++
      "                " ++ (if tryItOut then tryItOutBlock path md.1 else "") ++ "\n" ++
      "              </div>\n" ++
      "            ", ?_⟩
    simp only [methodBlock, String.append_assoc]

/-- C9: decoder selection in `parseSpec` is by the path's final
extension segment only (`yaml`/`yml` select the YAML decoder, everything
else the JSON decoder), and when the file exists the call fails with a
decode error exactly when the selected decoder rejects the content,
returning the decoded tree on success. -/
theorem claim9_parseSelection :
    ∀ (yamlDecode jsonDecode : String → Except String Spec)
      (fileContent : String → Option String) (p content : String),
      fileContent p = some content →
      ((extOf p = "yaml" ∨ extOf p = "yml") →
        parseSpec yamlDecode jsonDecode fileContent p =
          (match yamlDecode content with
           | .ok s => .ok s
           | .error m => .error (.decode m))) ∧
      (extOf p ≠ "yaml" → extOf p ≠ "yml" →
        parseSpec yamlDecode jsonDecode fileContent p =
          (match jsonDecode content with
           | .ok s => .ok s
           | .error m => .error (.decode m))) ∧
      (∀ s, parseSpec yamlDecode jsonDecode fileContent p = .ok s ↔
        (if extOf p = "yaml" ∨ extOf p = "yml"
         then yamlDecode content else jsonDecode content) = .ok s) ∧
      (∀ m, parseSpec yamlDecode jsonDecode fileContent p = .error (.decode m) ↔
        (if extOf p = "yaml" ∨ extOf p = "yml"
         then yamlDecode content else jsonDecode content) = .error m) := by
  intro y j fs p content h
  refine ⟨?_, ?_, ?_, ?_⟩
  · intro hext
    simp [parseSpec, h, if_pos hext]
  · intro h1 h2
    have hne : ¬(extOf p = "yaml" ∨ extOf p = "yml") := by
      rintro (hc | hc)
      exacts [h1 hc, h2 hc]
    simp [parseSpec, h, if_neg hne]
  · intro s
    simp only [parseSpec, h]
    cases hd : (if extOf p = "yaml" ∨ extOf p = "yml"
                then y content else j content) with
    | ok s2 => simp [hd]
    | error m2 => simp [hd]
  · intro m
    simp only [parseSpec, h]
    cases hd : (if extOf p = "yaml" ∨ extOf p = "yml"
                then y content else j content) with
    | ok s2 => simp [hd]
    | error m2 => simp [hd]

/-- Witness for C9: a YAML-extension path routed to the (rejecting) YAML
decoder propagates its decode error. -/
theorem claim9_witness :
    (extOf "api.yaml" = "yaml" ∨ extOf "api.yaml" = "yml") ∧
    parseSpec rejectDecoder acceptDecoder oneYamlFile "api.yaml" =
      .error (.decode "bad syntax") := by
  have hsel := (claim9_parseSelection rejectDecoder acceptDecoder oneYamlFile
    "api.yaml" "spec-text" rfl).1 (Or.inl (by decide))
  exact ⟨Or.inl (by decide), by rw [hsel]; rfl⟩

theorem foldl_push_map {α β : Type} (f : α → β) (l : List α) :
    ∀ acc : List β, l.foldl (fun a x => a ++ [f x]) acc = acc ++ l.map f := by
  induction l with
  | nil => intro acc; simp
  | cons x xs ih =>
    intro acc
    rw [List.foldl_cons, ih, List.map_cons]
    simp

theorem searchFold_eq {β : Type}
    (e : (String × List (String × Operation)) → (String × Operation) → β)
    (l : List (String × List (String × Operation))) :
    ∀ acc : List β,
      l.foldl (fun acc pm => pm.2.foldl (fun a md => a ++ [e pm md]) acc) acc =
        acc ++ l.flatMap (fun pm => pm.2.map (e pm)) := by
  induction l with
  | nil => intro acc; simp
  | cons pm rest ih =>
    intro acc
    rw [List.foldl_cons, foldl_push_map, ih, List.flatMap_cons, List.append_assoc]

/-- C2: the search index carries exactly one entry per `(path, method)`
pair of the spec, in the spec's own iteration order, with
`title = summary || description || path`, `description = description
|| ''` and `slug = slugify(path) + '-' + method`; when the spec's path
and method keys are duplicate-free the projected pairs are
duplicate-free too (multiplicity one). -/
theorem claim2_searchIndexRoundTrip :
    ∀ spec : Spec,
      ((generateSearchIndex spec).index =
        (spec.paths.getD []).flatMap (fun pm => pm.2.map (fun md =>
          { path := pm.1,
            method := md.1,
            title := jsOr md.2.summary (jsOr md.2.description pm.1),
            description := jsOr md.2.description "",
            slug := slugify pm.1 ++ "-" ++ md.1 }))) ∧
      ((generateSearchIndex spec).index.map (fun e => (e.path, e.method)) =
        (spec.paths.getD []).flatMap (fun pm => pm.2.map (fun md => (pm.1, md.1)))) ∧
      (((spec.paths.getD []).map Prod.fst).Nodup →
        (∀ pm ∈ spec.paths.getD [], (pm.2.map Prod.fst).Nodup) →
        ((generateSearchIndex spec).index.map (fun e => (e.path, e.method))).Nodup) := by
  intro spec
  have h1 : (generateSearchIndex spec).index =
      (spec.paths.getD []).flatMap (fun pm => pm.2.map (fun md =>
        ({ path := pm.1,
           method := md.1,
           title := jsOr md.2.summary (jsOr md.2.description pm.1),
           description := jsOr md.2.description "",
           slug := slugify pm.1 ++ "-" ++ md.1 } : SearchEntry))) := by
    show (spec.paths.getD []).foldl _ [] = _
    rw [searchFold_eq (fun pm md =>
      ({ path := pm.1,
         method := md.1,
         title := jsOr md.2.summary (jsOr md.2.description pm.1),
         description := jsOr md.2.description "",
         slug := slugify pm.1 ++ "-" ++ md.1 } : SearchEntry)) (spec.paths.getD []) []]
    exact List.nil_append _
  have h2 : (generateSearchIndex spec).index.map (fun e => (e.path, e.method)) =
      (spec.paths.getD []).flatMap (fun pm => pm.2.map (fun md => (pm.1, md.1))) := by
    rw [h1, List.map_flatMap]
    simp only [List.map_map]
    rfl
  refine ⟨h1, h2, ?_⟩
  intro hpaths hmethods
  rw [h2]
  rw [List.nodup_flatMap]
  constructor
  · intro pm hpm
    have hinj : Function.Injective (fun m : String => (pm.1, m)) := by
      intro a b hab
      simpa using hab
    have := (hmethods pm hpm).map hinj
    simpa [List.map_map, Function.comp] using this
  · have hp : (spec.paths.getD []).Pairwise (fun a b => a.1 ≠ b.1) := by
      have := hpaths
      rw [List.Nodup, List.pairwise_map] at this
      exact this
    refine hp.imp ?_
    intro a b hab
    intro x hxa hxb
    simp only [List.mem_map] at hxa hxb
    obtain ⟨ma, _, rfl⟩ := hxa
    obtain ⟨mb, _, hb⟩ := hxb
    exact hab (congrArg Prod.fst hb).symm

/-- Witness for C2 on the README example spec, whose keys are
duplicate-free. -/
theorem claim2_witness :
    ((generateSearchIndex exampleSpec).index.map (fun e => (e.path, e.method))).Nodup :=
  (claim2_searchIndexRoundTrip exampleSpec).2.2 (by decide) (by decide)

/-- C7: a spec whose `paths` mapping is absent or empty still renders a
complete HTML document (a `<!DOCTYPE html>`-to-`</html>` page equal to
the one for an explicitly empty mapping) with no endpoint blocks, and
the search index is empty; both functions are total, so neither fails
on a missing `paths` key. -/
theorem claim7_emptySpecDegradesGracefully :
    ∀ (spec : Spec) (options : GenOptions),
      spec.paths = none ∨ spec.paths = some [] →
      endpointBlocks options.tryItOut spec = "" ∧
      (generateSearchIndex spec).index = [] ∧
      generateHTML spec options = generateHTML { spec with paths := some [] } options ∧
      strStartsWith (generateHTML spec options) "<!DOCTYPE html>" = true ∧
      (∃ rest, generateHTML spec options = rest ++ "</html>") := by
  intro spec options h
  have hp : spec.paths.getD [] = [] := by
    rcases h with h | h <;> simp [h]
  refine ⟨?_, ?_, ?_, ?_, ⟨_, rfl⟩⟩
  · simp [endpointBlocks, hp, joinMap]
  · simp [generateSearchIndex, hp]
  · simp only [generateHTML, tocNav, endpointBlocks, contactSection,
      schemasSection, hp, Option.getD_some]
  · rw [strStartsWith, List.isPrefixOf_iff_prefix]
    show "<!DOCTYPE html>".data <+: (generateHTML spec options).data
    simp only [generateHTML, String.data_append, List.append_assoc]
    exact (show "<!DOCTYPE html>".data <+: "<!DOCTYPE html>\n".data by decide).trans
      (List.prefix_append _ _)

/-- Witness for C7 at the spec with `paths` absent. -/
theorem claim7_witness :
    endpointBlocks exampleOptions.tryItOut specMissingAll = "" ∧
    (generateSearchIndex specMissingAll).index = [] := by
  have h := claim7_emptySpecDegradesGracefully specMissingAll exampleOptions (Or.inl rfl)
  exact ⟨h.1, h.2.1⟩

/-- C4 counterexample: an operation whose request body carries only a
`text/plain` media type — no `application/json` schema — still renders
a request-body block, refuting "a request-body code block … if and only
if the operation's requestBody carries a JSON media-type schema". -/
theorem claim4_counterexample :
    plainBodyOp.requestBody.isSome = true ∧
    (lookupJsonSchema plainBody.content).isSome = false ∧
    requestBodySection plainBodyOp ≠ "" ∧
    strContains (requestBodySection plainBodyOp) "Request Body" = true := by
  refine ⟨rfl, rfl, ?_, ?_⟩
  · decide
  · decide

/-- C4 amended: the request-body block is rendered for an operation iff
the operation's `requestBody` is present (truthy), regardless of its
media types; when no `application/json` schema is present the block
still renders, showing the empty-schema fallback `{}`. -/
theorem claim4_requestBodyAmended :
    ∀ details : Operation,
      (requestBodySection details = "" ↔ details.requestBody = none) ∧
      (∀ rb, details.requestBody = some rb →
        requestBodySection details =
          "\n" ++
          "                  <h3>Request Body</h3>\n" ++
          "                  <pre><code class=\"language-json\">" ++
            escapeHtml (jsonStringify (jsonOrEmpty (lookupJsonSchema rb.content))) ++
            "</code></pre>\n" ++
          "                ") ∧
      (∀ rb, details.requestBody = some rb → lookupJsonSchema rb.content = none →
        jsonStringify (jsonOrEmpty (lookupJsonSchema rb.content)) = "\x7b\x7d") := by
  intro details
  refine ⟨?_, ?_, ?_⟩
  · cases hrb : details.requestBody with
    | none => simp [requestBodySection, hrb]
    | some rb =>
      simp only [requestBodySection, hrb]
      constructor
      · intro heq
        have hd := congrArg String.data heq
        simp [String.data_append] at hd
      · intro heq
        cases heq
  · intro rb hrb
    simp [requestBodySection, hrb]
  · intro rb hrb hnone
    rw [hnone]
    rfl

/-- Witness for the amended C4 at the `text/plain`-only request body. -/
theorem claim4_witness :
    requestBodySection plainBodyOp =
      "\n" ++
      "                  <h3>Request Body</h3>\n" ++
      "                  <pre><code class=\"language-json\">" ++
        escapeHtml (jsonStringify (jsonOrEmpty (lookupJsonSchema plainBody.content))) ++
        "</code></pre>\n" ++
      "                " ∧
    jsonStringify (jsonOrEmpty (lookupJsonSchema plainBody.content)) = "\x7b\x7d" :=
  ⟨(claim4_requestBodyAmended plainBodyOp).2.1 plainBody rfl,
   (claim4_requestBodyAmended plainBodyOp).2.2 plainBody rfl rfl⟩

theorem noApos_responseClass (code : String) : noApos (responseClass code) := by
  unfold responseClass
  split_ifs <;> decide

theorem noApos_responseBlock (code : String) (response : ResponseObj)
    (h : noApos code) : noApos (responseBlock code response) := by
  simp only [responseBlock, noApos_append]
  repeat' apply And.intro
  all_goals first
    | decide
    | exact h
    | exact noApos_responseClass code
    | exact noApos_escapeHtml _
    | (split
       · simp only [noApos_append]
         repeat' apply And.intro
         all_goals first
           | decide
           | exact noApos_escapeHtml _
       · exact noApos_empty)

theorem noApos_paramRow (param : Param) : noApos (paramRow param) := by
  simp only [paramRow, noApos_append]
  repeat' apply And.intro
  all_goals first
    | decide
    | exact noApos_escapeHtml _
    | (split <;> decide)

theorem noApos_paramsTable (details : Operation) : noApos (paramsTable details) := by
  cases hp : details.parameters with
  | none => simp only [paramsTable, hp]; exact noApos_empty
  | some l =>
    cases l with
    | nil => simp only [paramsTable, hp]; exact noApos_empty
    | cons p ps =>
      simp only [paramsTable, hp, noApos_append]
      repeat' apply And.intro
      all_goals first
        | decide
        | exact noApos_joinMap (fun x _ => noApos_paramRow x)

theorem noApos_requestBodySection (details : Operation) :
    noApos (requestBodySection details) := by
  cases hr : details.requestBody with
  | none => simp only [requestBodySection, hr]; exact noApos_empty
  | some rb =>
    simp only [requestBodySection, hr, noApos_append]
    repeat' apply And.intro
    all_goals first
      | decide
      | exact noApos_escapeHtml _

theorem noApos_tocMethodItem (path method : String) (h : noApos method) :
    noApos (tocMethodItem path method) := by
  simp only [tocMethodItem, noApos_append]
  repeat' apply And.intro
  all_goals first
    | decide
    | exact h
    | exact noApos_slugify _
    | exact noApos_strToUpper h

theorem noApos_tocPathItem (path : String) (methods : List (String × Operation))
    (h : ∀ md ∈ methods, noApos md.1) : noApos (tocPathItem path methods) := by
  simp only [tocPathItem, noApos_append]
  repeat' apply And.intro
  all_goals first
    | decide
    | exact noApos_slugify _
    | exact noApos_escapeHtml _
    | exact noApos_joinMap (fun md hmd => noApos_tocMethodItem path md.1 (h md hmd))

theorem noApos_tocNav (spec : Spec)
    (h : ∀ pm ∈ spec.paths.getD [], ∀ md ∈ pm.2, noApos md.1) :
    noApos (tocNav spec) := by
  simp only [tocNav, noApos_append]
  repeat' apply And.intro
  all_goals first
    | decide
    | exact noApos_joinMap (fun pm hpm => noApos_tocPathItem pm.1 pm.2 (h pm hpm))

theorem noApos_searchBox : noApos searchBox := by decide

theorem noApos_contactSection (spec : Spec)
    (h : ∀ contact, spec.info.bind Info.contact = some contact →
      noAposOpt contact.email ∧ noAposOpt contact.url) :
    noApos (contactSection spec) := by
  cases hc : spec.info.bind Info.contact with
  | none => simp only [contactSection, hc]; exact noApos_empty
  | some contact =>
    simp only [contactSection, hc, noApos_append]
    repeat' apply And.intro
    all_goals first
      | decide
      | exact noApos_ifStr (fun s hs => by
          simp only [noApos_append]
          exact ⟨⟨⟨⟨by decide, (h contact hc).1 s hs⟩, by decide⟩,
            noApos_escapeHtml s⟩, by decide⟩)
      | exact noApos_ifStr (fun s hs => by
          simp only [noApos_append]
          exact ⟨⟨⟨⟨by decide, (h contact hc).2 s hs⟩, by decide⟩,
            noApos_escapeHtml s⟩, by decide⟩)

theorem noApos_schemaBlock (name : String) (schema : Json) :
    noApos (schemaBlock name schema) := by
  simp only [schemaBlock, noApos_append]
  repeat' apply And.intro
  all_goals first
    | decide
    | exact noApos_escapeHtml _

theorem noApos_schemasSection (spec : Spec) : noApos (schemasSection spec) := by
  cases hs : spec.components.bind Components.schemas with
  | none => simp only [schemasSection, hs]; exact noApos_empty
  | some schemas =>
    simp only [schemasSection, hs, noApos_append]
    repeat' apply And.intro
    all_goals first
      | decide
      | exact noApos_joinMap (fun ns _ => noApos_schemaBlock ns.1 ns.2)

theorem noApos_methodBlock (path : String) (md : String × Operation)
    (hm : noApos md.1)
    (hc : ∀ cr ∈ md.2.responses.getD [], noApos cr.1) :
    noApos (methodBlock false path md) := by
  simp only [methodBlock, noApos_append]
  repeat' apply And.intro
  all_goals first
    | decide
    | exact hm
    | exact noApos_slugify _
    | exact noApos_strToUpper hm
    | exact noApos_escapeHtml _
    | exact noApos_paramsTable md.2
    | exact noApos_requestBodySection md.2
    | exact noApos_joinMap (fun cr hcr => noApos_responseBlock cr.1 cr.2 (hc cr hcr))
    | exact noApos_ifStr (fun d _ => by
        simp only [noApos_append]
        exact ⟨⟨by decide, noApos_escapeHtml d⟩, by decide⟩)
    | (rw [if_neg (by decide)]; exact noApos_empty)

theorem noApos_pathGroup (pm : String × List (String × Operation))
    (h : ∀ md ∈ pm.2, noApos md.1 ∧
      ∀ cr ∈ md.2.responses.getD [], noApos cr.1) :
    noApos (pathGroup false pm) := by
  simp only [pathGroup, noApos_append]
  repeat' apply And.intro
  all_goals first
    | decide
    | exact noApos_slugify _
    | exact noApos_escapeHtml _
    | exact noApos_joinMap (fun md hmd =>
        noApos_methodBlock pm.1 md (h md hmd).1 (h md hmd).2)

theorem noApos_endpointBlocks (spec : Spec)
    (h : ∀ pm ∈ spec.paths.getD [], ∀ md ∈ pm.2, noApos md.1 ∧
      ∀ cr ∈ md.2.responses.getD [], noApos cr.1) :
    noApos (endpointBlocks false spec) :=
  noApos_joinMap (fun pm hpm => noApos_pathGroup pm (h pm hpm))

theorem noApos_generateHTML (spec : Spec) (options : GenOptions)
    (hTry : options.tryItOut = false)
    (hTheme : noApos options.theme)
    (hLogo : noAposOpt options.logo)
    (hFav : noAposOpt options.favicon)
    (hContact : ∀ contact, spec.info.bind Info.contact = some contact →
      noAposOpt contact.email ∧ noAposOpt contact.url)
    (hPaths : ∀ pm ∈ spec.paths.getD [], ∀ md ∈ pm.2, noApos md.1 ∧
      ∀ cr ∈ md.2.responses.getD [], noApos cr.1) :
    noApos (generateHTML spec options) := by
  simp only [generateHTML, hTry, noApos_append]
  repeat' apply And.intro
  all_goals first
    | decide
    | exact hTheme
    | exact noApos_escapeHtml _
    | exact noApos_contactSection spec hContact
    | exact noApos_schemasSection spec
    | exact noApos_endpointBlocks spec hPaths
    | exact noApos_ifStr (fun s hs => by
        simp only [noApos_append]
        exact ⟨⟨by decide, hLogo s hs⟩, by decide⟩)
    | exact noApos_ifStr (fun s hs => by
        simp only [noApos_append]
        exact ⟨⟨by decide, hFav s hs⟩, by decide⟩)
    | (split <;> first
        | exact noApos_empty
        | exact noApos_searchBox
        | exact noApos_tocNav spec (fun pm hpm md hmd => (hPaths pm hpm md hmd).1))

theorem escapeChar_safe (a c : Char) (hc : c ∈ escapeChar a) :
    c ≠ '<' ∧ c ≠ '>' ∧ c ≠ quot ∧ c ≠ apos := by
  unfold escapeChar at hc
  split_ifs at hc with h1 h2 h3 h4 h5
  · fin_cases hc <;> exact ⟨by decide, by decide, by decide, by decide⟩
  · fin_cases hc <;> exact ⟨by decide, by decide, by decide, by decide⟩
  · fin_cases hc <;> exact ⟨by decide, by decide, by decide, by decide⟩
  · fin_cases hc <;> exact ⟨by decide, by decide, by decide, by decide⟩
  · fin_cases hc <;> exact ⟨by decide, by decide, by decide, by decide⟩
  · simp only [List.mem_singleton] at hc
    subst hc
    exact ⟨fun h => h2 h, fun h => h3 h, fun h => h4 h, fun h => h5 h⟩

theorem listContainsAt_subset (needle : List Char) :
    ∀ hay, listContainsAt hay needle = true → ∀ c ∈ needle, c ∈ hay := by
  intro hay
  induction hay with
  | nil =>
    intro h c hc
    cases needle with
    | nil => cases hc
    | cons b n => simp [listContainsAt] at h
  | cons a t ih =>
    intro h c hc
    cases needle with
    | nil => cases hc
    | cons b n =>
      simp only [listContainsAt, Bool.or_eq_true] at h
      rcases h with hp | hrec
      · rw [List.isPrefixOf_iff_prefix] at hp
        exact hp.subset hc
      · exact List.mem_cons_of_mem a (ih hrec c hc)

theorem strContains_false_of_not_mem {h n : String} {c : Char}
    (hc : c ∈ n.data) (hh : c ∉ h.data) : strContains h n = false := by
  by_contra hcon
  exact hh (listContainsAt_subset n.data h.data
    (by simpa using hcon) c hc)

/-- C1 counterexample: with `tryItOut` enabled, a path containing an
apostrophe and `<` is interpolated raw — unescaped — into the
Try-It-Out button's `onclick` attribute, so the full rendered document
contains the raw path substring, refuting the claim for arbitrary
options. -/
theorem claim1_counterexample :
    apos ∈ trickyPath.data ∧
    ('<' : Char) ∈ trickyPath.data ∧
    strContains (generateHTML trickySpec tryItOutOptions) trickyPath = true := by
  refine ⟨by decide, by decide, by decide⟩

/-- C1 amended: `escapeHtml` output never contains a raw `<`, `>`, `"`
or `'`; every parameter name, path and description is embedded through
`escapeHtml` except the path spliced raw into the Try-It-Out button, so
whenever `tryItOut` is disabled (and the non-free-text splices — theme,
logo, favicon, method keys, status codes, contact fields — contain no
apostrophe) the whole rendered document contains no raw apostrophe at
all, and hence never contains the raw form of any field containing an
apostrophe. -/
theorem claim1_escapeInjectionAmended :
    (∀ s : String, ∀ c ∈ (escapeHtml s).data,
      c ≠ '<' ∧ c ≠ '>' ∧ c ≠ quot ∧ c ≠ apos) ∧
    (∀ (spec : Spec) (options : GenOptions),
      options.tryItOut = false →
      noApos options.theme →
      noAposOpt options.logo →
      noAposOpt options.favicon →
      (∀ contact, spec.info.bind Info.contact = some contact →
        noAposOpt contact.email ∧ noAposOpt contact.url) →
      (∀ pm ∈ spec.paths.getD [], ∀ md ∈ pm.2, noApos md.1 ∧
        ∀ cr ∈ md.2.responses.getD [], noApos cr.1) →
      noApos (generateHTML spec options) ∧
      (∀ s : String, apos ∈ s.data →
        strContains (generateHTML spec options) s = false)) := by
  constructor
  · intro s c hc
    unfold escapeHtml at hc
    split at hc
    · cases hc
    · have hc2 : c ∈ s.data.flatMap escapeChar := hc
      simp only [List.mem_flatMap] at hc2
      obtain ⟨a, _, hmem⟩ := hc2
      exact escapeChar_safe a c hmem
  · intro spec options hTry hTheme hLogo hFav hContact hPaths
    have hdoc := noApos_generateHTML spec options hTry hTheme hLogo hFav hContact hPaths
    exact ⟨hdoc, fun s hs => strContains_false_of_not_mem hs hdoc⟩

/-- Witness for the amended C1 on the README example spec with default
options (`tryItOut` disabled). -/
theorem claim1_witness :
    noApos (generateHTML exampleSpec exampleOptions) ∧
    strContains (generateHTML exampleSpec exampleOptions) "/a\x27<b" = false := by
  have h := claim1_escapeInjectionAmended.2 exampleSpec exampleOptions rfl
    (by decide) (fun s hs => nomatch hs) (fun s hs => nomatch hs)
    (fun c hc => nomatch hc) (by decide)
  exact ⟨h.1, h.2 "/a\x27<b" (by decide)⟩
